import Mathlib

/-!
Shallow embedding of the Binance common market-data client
(`nautilus_trader/adapters/binance/common/data.py`): the order-book
snapshot/diff reconciliation protocol, the websocket frame dispatcher,
subscription parameter validation, historical request handling, and the
periodic instrument-refresh task lifecycle.

Instruments, correlation tokens and bar payloads are represented by `Nat`
tags; the fields that the control flow of the source actually inspects
(sequence numbers, depths, update speeds, aggregation units, flags) are
carried explicitly.
-/

/-- An order-book delta batch (`OrderBookDeltas`): the venue sequence
number together with a payload tag distinguishing distinct batches. -/
structure DeltaBatch where
  sequence : Nat
  payload : Nat
  deriving DecidableEq, Repr

/-- The `_book_buffer` hot cache,
`dict[InstrumentId, list[OrderBookDelta | OrderBookDeltas]]`, as an
association list keyed by the instrument tag. -/
abbrev BufferMap := List (Nat × List DeltaBatch)

/-- Python `dict.get(i)`. -/
def lookupBuf : BufferMap → Nat → Option (List DeltaBatch)
  | [], _ => none
  | (k, v) :: rest, i => if k = i then some v else lookupBuf rest i

/-- Removal of every binding of a key (`dict.pop`, and the overwrite part
of `dict[i] = v`). -/
def eraseBuf : BufferMap → Nat → BufferMap
  | [], _ => []
  | (k, v) :: rest, i => if k = i then eraseBuf rest i else (k, v) :: eraseBuf rest i

/-- Python `dict[i] = v`. -/
def insertBuf (st : BufferMap) (i : Nat) (v : List DeltaBatch) : BufferMap :=
  (i, v) :: eraseBuf st i

/-- The `BinanceAccountType` enum. Modelled from the spec: the
account/market mode (the enum module is outside the source excerpt); the
spec distinguishes spot/margin modes from futures modes. -/
inductive AccountType
  | spot
  | margin
  | isolatedMargin
  | usdtFuture
  | coinFuture
  deriving DecidableEq, Repr

/-- The `is_futures` property of the account type. -/
def AccountType.isFutures : AccountType → Bool
  | .usdtFuture => true
  | .coinFuture => true
  | _ => false

/-- The `is_spot_or_margin` property of the account type. -/
def AccountType.isSpotOrMargin : AccountType → Bool
  | .spot => true
  | .margin => true
  | .isolatedMargin => true
  | _ => false

/-- The `BookType` enum values used by `_subscribe_order_book`. -/
inductive BookType
  | L1_TBBO
  | L2_MBP
  | L3_MBO
  deriving DecidableEq, Repr

/-- Valid update speeds (`valid_speeds` in `_subscribe_order_book`):
`[0, 100, 250, 500]` for futures, `[100, 1000]` for spot/margin. -/
def validSpeedsOf (acct : AccountType) : List Nat :=
  if acct.isFutures then [0, 100, 250, 500] else [100, 1000]

/-- The effective update speed after applying the mode-dependent default
(`update_speed = 0` for futures, `100` for spot, when `None` given). -/
def speedOf (acct : AccountType) (updateSpeed : Option Nat) : Nat :=
  match updateSpeed with
  | none => if acct.isFutures then 0 else 100
  | some s => s

/-- A network side effect: a websocket subscribe or an HTTP request issued
by the client. -/
inductive NetworkAction
  | subscribePartialDepth (inst depth speed : Nat)
  | requestSnapshot (inst limit : Nat)
  | subscribeDiffDepth (inst speed : Nat)
  | subscribeBarsWs (inst : Nat) (interval : Nat × Char)
  | requestBinanceBars (interval : Nat × Char) (limit : Nat)
  | requestTrades (limit : Nat)
  | requestAggTrades (limit : Nat)
  deriving DecidableEq, Repr

/-- The `_handle_book_diff_update` handler, after decoding: if a buffer
entry exists for the instrument the batch is appended to it, otherwise the
batch goes straight to `_handle_data` (returned as the second component). -/
def handleBookDiffUpdate (st : BufferMap) (inst : Nat) (b : DeltaBatch) :
    BufferMap × Option DeltaBatch :=
  match lookupBuf st inst with
  | some buf => (insertBuf st inst (buf ++ [b]), none)
  | none => (st, some b)

/-- A run of `_handle_book_diff_update` over a list of inbound diff
batches for one instrument, collecting the batches forwarded to
`_handle_data` in order. -/
def dispatchArrivals (st : BufferMap) (inst : Nat) : List DeltaBatch → BufferMap × List DeltaBatch
  | [] => (st, [])
  | b :: bs =>
    let s1 := handleBookDiffUpdate st inst b
    let s2 := dispatchArrivals s1.1 inst bs
    (s2.1, s1.2.toList ++ s2.2)

/-- The flush loop at the end of `_subscribe_order_book`:
`for deltas in book_buffer: if snapshot and deltas.sequence <= snapshot.sequence:
continue; self._handle_data(deltas)`. -/
def flushBuffer (snapshot : Option DeltaBatch) (buffer : List DeltaBatch) : List DeltaBatch :=
  buffer.filter fun b =>
    match snapshot with
    | some s => !decide (b.sequence ≤ s.sequence)
    | none => true

/-- The observable outcome of one `_subscribe_order_book` call: error logs,
network actions, `_handle_data` deliveries in order, and the final
`_book_buffer`. -/
structure SubRes where
  errors : List String
  actions : List NetworkAction
  delivered : List DeltaBatch
  buffer : BufferMap
  deriving DecidableEq, Repr

/-- The `_subscribe_order_book` coroutine. `snapResponse` is the snapshot
the venue returns on the snapshot path; `arrivals` are the diff batches
for this instrument that the dispatcher handles during the coroutine's
await points (between buffer creation and the flush). -/
def subscribeOrderBook (acct : AccountType) (bookType : BookType) (inst : Nat)
    (updateSpeed : Option Nat) (depthArg : Option Nat)
    (st : BufferMap) (snapResponse : DeltaBatch) (arrivals : List DeltaBatch) : SubRes :=
  if bookType = BookType.L3_MBO then
    { errors := ["L3_MBO data is not published by Binance"],
      actions := [], delivered := [], buffer := st }
  else if speedOf acct updateSpeed ∈ validSpeedsOf acct then
    let speed := speedOf acct updateSpeed
    let depth := depthArg.getD 0
    let st1 := insertBuf st inst []
    if 0 < depth ∧ depth ≤ 20 then
      if depth ∉ ([5, 10, 20] : List Nat) then
        { errors := ["invalid depth, valid depths are 5, 10 or 20"],
          actions := [], delivered := [], buffer := st1 }
      else
        let acts := [NetworkAction.subscribePartialDepth inst depth speed,
                     NetworkAction.requestSnapshot inst depth]
        let run := dispatchArrivals st1 inst arrivals
        let bookBuffer := (lookupBuf run.1 inst).getD []
        { errors := [], actions := acts,
          delivered := run.2 ++ snapResponse :: flushBuffer (some snapResponse) bookBuffer,
          buffer := eraseBuf run.1 inst }
    else
      let acts := [NetworkAction.subscribeDiffDepth inst speed]
      let run := dispatchArrivals st1 inst arrivals
      let bookBuffer := (lookupBuf run.1 inst).getD []
      { errors := [], actions := acts,
        delivered := run.2 ++ flushBuffer none bookBuffer,
        buffer := eraseBuf run.1 inst }
  else
    { errors := ["invalid update_speed"],
      actions := [], delivered := [], buffer := st }

/-! ## Stream dispatcher (`_handle_ws_message`) -/

/-- Whether `pat` occurs at the start of `cs`. -/
def isPrefixOfChars : List Char → List Char → Bool
  | [], _ => true
  | _ :: _, [] => false
  | a :: as, b :: bs => a == b && isPrefixOfChars as bs

/-- Whether `pat` occurs anywhere in `cs` (Python `pat in s`). -/
def containsChars (pat : List Char) : List Char → Bool
  | [] => isPrefixOfChars pat []
  | c :: rest => isPrefixOfChars pat (c :: rest) || containsChars pat rest

/-- Python substring containment `pat in s` on strings. -/
def strContains (s pat : String) : Bool := containsChars pat.data s.data

/-- The keys of the `_ws_handlers` registration table, in insertion
(iteration) order. -/
def wsHandlerKeys : List String :=
  ["@bookTicker", "@ticker", "@kline", "@trade", "@aggTrade",
   "@depth@", "@depth5", "@depth10", "@depth20"]

/-- An observable event of one `_handle_ws_message` call. -/
inductive WsEvent
  | dispatched (key : String)
  | unrecognized (stream : String)
  | caughtError
  deriving DecidableEq, Repr

/-- An inbound raw frame, abstracted to what the dispatcher inspects:
whether the thin envelope decode succeeds (and the topic tag it yields),
and whether a given handler raises while processing the frame. -/
structure Frame where
  wrapper : Option String
  raises : String → Bool

/-- The outcome of `_handle_ws_message`: either an exception escaped the
routine, or it returned normally with the listed events. -/
inductive WsOutcome
  | propagated
  | ok (events : List WsEvent)

/-- The `try` block of `_handle_ws_message`: iterate the handler table in
order; a matching handler that raises aborts the loop and is caught by the
`except` clause; if no handler matched, the unrecognized-topic error is
logged. -/
def dispatchFrame (stream : String) (raises : String → Bool) :
    List String → Bool → List WsEvent
  | [], handled => if handled then [] else [WsEvent.unrecognized stream]
  | k :: ks, handled =>
    if strContains stream k then
      if raises k then [WsEvent.caughtError]
      else WsEvent.dispatched k :: dispatchFrame stream raises ks true
    else dispatchFrame stream raises ks handled

/-- The `_handle_ws_message` routine. The envelope decode
(`self._decoder_data_msg_wrapper.decode(raw)`) happens before the `try`
block, so its failure escapes the routine. -/
def handleWsMessage (f : Frame) : WsOutcome :=
  match f.wrapper with
  | none => WsOutcome.propagated
  | some stream => WsOutcome.ok (dispatchFrame stream f.raises wsHandlerKeys false)

/-! ## Bar subscriptions and historical requests -/

/-- Internal bar aggregation units (`BarAggregation`); `tick` stands for
any non-time-based aggregation. -/
inductive BarAggregation
  | tick
  | second
  | minute
  | hour
  | day
  | week
  | month
  deriving DecidableEq, Repr

/-- The `is_time_aggregated` property of a bar specification. -/
def isTimeAggregated : BarAggregation → Bool
  | BarAggregation.tick => false
  | _ => true

/-- The `parse_internal_bar_agg` mapping. Modelled from the spec: maps an
internal aggregation unit to the venue's interval-vocabulary letter (the
enum-parser module is outside the source excerpt). Only time-based units
reach it in the source. -/
def parseInternalBarAgg : BarAggregation → Char
  | BarAggregation.tick => 't'
  | BarAggregation.second => 's'
  | BarAggregation.minute => 'm'
  | BarAggregation.hour => 'h'
  | BarAggregation.day => 'd'
  | BarAggregation.week => 'w'
  | BarAggregation.month => 'M'

/-- The `BinanceKlineInterval` vocabulary as (step, unit-letter) pairs.
Modelled from the spec: the venue's supported bar-interval vocabulary (the
Binance kline intervals, which include the one-second interval "1s"); the
enum module is outside the source excerpt. The f-string
`f"{step}{resolution}"` is injective on these pairs. -/
def klineIntervals : List (Nat × Char) :=
  [(1, 's'), (1, 'm'), (3, 'm'), (5, 'm'), (15, 'm'), (30, 'm'),
   (1, 'h'), (2, 'h'), (4, 'h'), (6, 'h'), (8, 'h'), (12, 'h'),
   (1, 'd'), (3, 'd'), (1, 'w'), (1, 'M')]

/-- `BinanceKlineInterval(f"{step}{resolution}")`: `some` on success,
`none` when the constructor raises `ValueError`. -/
def mkKlineInterval (step : Nat) (resolution : Char) : Option (Nat × Char) :=
  if (step, resolution) ∈ klineIntervals then some (step, resolution) else none

/-- A bar type, abstracted to the fields the source inspects. -/
structure BarTypeM where
  instrument : Nat
  externallyAggregated : Bool
  aggregation : BarAggregation
  step : Nat
  priceTypeLast : Bool
  deriving DecidableEq, Repr

/-- The observable outcome of one `_subscribe_bars` call. `added` records
whether `_add_subscription_bars` ran; `raised` records a `PyCondition`
failure escaping the call. -/
structure SubBarsRes where
  errors : List String
  actions : List NetworkAction
  added : Bool
  raised : Bool
  deriving DecidableEq, Repr

/-- The `_subscribe_bars` coroutine. Note that the futures/second-interval
check logs its error but does not return. -/
def subscribeBars (acct : AccountType) (bt : BarTypeM) : SubBarsRes :=
  if !bt.externallyAggregated then
    { errors := [], actions := [], added := false, raised := true }
  else if !isTimeAggregated bt.aggregation then
    { errors := ["only time bars are aggregated by Binance"],
      actions := [], added := false, raised := false }
  else
    let resolution := parseInternalBarAgg bt.aggregation
    let errs0 :=
      if acct.isFutures && resolution == 's' then
        ["Second interval bars are not aggregated by Binance Futures"]
      else []
    match mkKlineInterval bt.step resolution with
    | none =>
      { errors := errs0 ++ ["Bar interval not supported by Binance"],
        actions := [], added := false, raised := false }
    | some iv =>
      { errors := errs0,
        actions := [NetworkAction.subscribeBarsWs bt.instrument iv],
        added := true, raised := false }

/-- The limit clamp shared by `_request_bars` and `_request_trade_ticks`:
`if limit == 0 or limit > 1000: limit = 1000`. -/
def clampLimit (limit : Nat) : Nat :=
  if limit == 0 || limit > 1000 then 1000 else limit

/-- The `_request_trade_ticks` request issue: clamp the limit, then issue
the plain-trades or aggregated-trades HTTP request carrying it. -/
def requestTradeTicksM (useAggTradeTicks : Bool) (limit : Nat) : List NetworkAction :=
  if !useAggTradeTicks then [NetworkAction.requestTrades (clampLimit limit)]
  else [NetworkAction.requestAggTrades (clampLimit limit)]

/-- The observable outcome of one `_request_bars` call: error logs, HTTP
actions, the `_handle_bars` delivery `(bars, partial bar, correlation
token)` when one happened, and whether an exception escaped the call. -/
structure ReqBarsRes where
  errors : List String
  actions : List NetworkAction
  delivered : Option (List Nat × Nat × Nat)
  raised : Bool
  deriving DecidableEq, Repr

/-- The `_request_bars` coroutine. `response` is the bar list the venue
returns for the issued request. The futures/second-interval check (here
keyed on `not is_spot_or_margin`) logs its error but does not return;
`bars.pop()` raises `IndexError` on an empty response. -/
def requestBarsM (acct : AccountType) (bt : BarTypeM) (limit : Nat) (cid : Nat)
    (response : List Nat) : ReqBarsRes :=
  let lim := clampLimit limit
  if !bt.externallyAggregated then
    { errors := ["only historical bars with EXTERNAL aggregation available"],
      actions := [], delivered := none, raised := false }
  else if !isTimeAggregated bt.aggregation then
    { errors := ["only time bars are aggregated by Binance"],
      actions := [], delivered := none, raised := false }
  else
    let resolution := parseInternalBarAgg bt.aggregation
    let errs0 :=
      if !acct.isSpotOrMargin && resolution == 's' then
        ["second interval bars are not aggregated by Binance Futures"]
      else []
    match mkKlineInterval bt.step resolution with
    | none =>
      { errors := errs0 ++ ["Cannot create Binance Kline interval"],
        actions := [], delivered := none, raised := false }
    | some iv =>
      if !bt.priceTypeLast then
        { errors := errs0 ++ ["only historical bars for LAST price type available"],
          actions := [], delivered := none, raised := false }
      else
        let acts := [NetworkAction.requestBinanceBars iv lim]
        match response.getLast? with
        | none =>
          { errors := errs0, actions := acts, delivered := none, raised := true }
        | some lastBar =>
          { errors := errs0, actions := acts,
            delivered := some (response.dropLast, lastBar, cid), raised := false }

/-! ## Instrument-refresh task (`_update_instruments`, `_disconnect`) -/

/-- The outcome of one pass through the `asyncio.sleep` suspension point
of the `_update_instruments` loop. -/
inductive SleepOutcome
  | completed
  | cancelled
  deriving DecidableEq, Repr

/-- The state of a run of the `_update_instruments` loop over a finite
schedule of sleep outcomes: `absorbed n` means `CancelledError` was raised
at a sleep, caught by the `except` clause and debug-logged (a normal
return) after `n` reload/re-push iterations; `running n` means the
schedule ran out with the loop still live after `n` iterations. -/
inductive RefreshRun
  | absorbed (reloads : Nat)
  | running (reloads : Nat)
  deriving DecidableEq, Repr

/-- The `_update_instruments` loop: each iteration sleeps, then reloads
the instrument registry and re-pushes the instrument set; a cancellation
delivered at the sleep raises `CancelledError`, which the surrounding
`try`/`except` absorbs. -/
def updateInstruments : List SleepOutcome → RefreshRun
  | [] => RefreshRun.running 0
  | SleepOutcome.cancelled :: _ => RefreshRun.absorbed 0
  | SleepOutcome.completed :: rest =>
    match updateInstruments rest with
    | RefreshRun.absorbed n => RefreshRun.absorbed (n + 1)
    | RefreshRun.running n => RefreshRun.running (n + 1)

/-- The `_update_instruments_task` handling in `_disconnect`: if a task
handle exists it is cancelled and the handle is cleared; returns the new
handle and whether `cancel()` was called. -/
def disconnectTask : Option Nat → Option Nat × Bool
  | some _ => (none, true)
  | none => (none, false)

/-! ## Helper lemmas on the buffer map and the synchronizer -/

/-- Looking up a key just inserted yields the inserted value. -/
lemma lookupBuf_insertBuf_self (st : BufferMap) (i : Nat) (v : List DeltaBatch) :
    lookupBuf (insertBuf st i v) i = some v := by
  simp [insertBuf, lookupBuf]

/-- Looking up a key just erased yields `none`. -/
lemma lookupBuf_eraseBuf_self (st : BufferMap) (i : Nat) :
    lookupBuf (eraseBuf st i) i = none := by
  induction st with
  | nil => simp [eraseBuf, lookupBuf]
  | cons kv rest ih =>
    obtain ⟨k, v⟩ := kv
    by_cases h : k = i
    · simp [eraseBuf, h, ih]
    · simp [eraseBuf, lookupBuf, h, ih]

/-- While a buffer entry exists, a run of `_handle_book_diff_update`
appends every batch to the entry in arrival order and forwards nothing. -/
lemma dispatchArrivals_spec (inst : Nat) :
    ∀ (l : List DeltaBatch) (st : BufferMap) (acc : List DeltaBatch),
      lookupBuf st inst = some acc →
      lookupBuf (dispatchArrivals st inst l).1 inst = some (acc ++ l)
        ∧ (dispatchArrivals st inst l).2 = []
  | [], st, acc, h => by simp [dispatchArrivals, h]
  | b :: bs, st, acc, h => by
    have hstep : handleBookDiffUpdate st inst b = (insertBuf st inst (acc ++ [b]), none) := by
      simp [handleBookDiffUpdate, h]
    have ih := dispatchArrivals_spec inst bs (insertBuf st inst (acc ++ [b])) (acc ++ [b])
      (lookupBuf_insertBuf_self st inst (acc ++ [b]))
    simpa [dispatchArrivals, hstep] using ih

/-- Characterization of the snapshot path of `_subscribe_order_book`
(valid depth in {5, 10, 20}, valid update speed). -/
lemma subscribeOrderBook_snapshot (acct : AccountType) (inst : Nat) (us : Option Nat)
    (st : BufferMap) (snap : DeltaBatch) (arrivals : List DeltaBatch) (d : Nat)
    (hd : d ∈ ([5, 10, 20] : List Nat)) (hs : speedOf acct us ∈ validSpeedsOf acct) :
    subscribeOrderBook acct BookType.L2_MBP inst us (some d) st snap arrivals =
      { errors := [],
        actions := [NetworkAction.subscribePartialDepth inst d (speedOf acct us),
                    NetworkAction.requestSnapshot inst d],
        delivered := snap :: (arrivals.filter fun b => !decide (b.sequence ≤ snap.sequence)),
        buffer := eraseBuf (dispatchArrivals (insertBuf st inst []) inst arrivals).1 inst } := by
  have hrun := dispatchArrivals_spec inst arrivals (insertBuf st inst []) []
    (lookupBuf_insertBuf_self st inst [])
  have hdn : 0 < d ∧ d ≤ 20 := by fin_cases hd <;> norm_num
  unfold subscribeOrderBook
  rw [if_neg (by decide : ¬(BookType.L2_MBP = BookType.L3_MBO)), if_pos hs]
  simp only [Option.getD_some]
  rw [if_pos hdn, if_neg (not_not_intro hd)]
  rw [hrun.1, hrun.2]
  simp [flushBuffer]

/-- Characterization of the depth-rejection path of `_subscribe_order_book`
(positive depth at most 20 but outside {5, 10, 20}): the call returns with
the freshly created (empty) buffer entry still in place. -/
lemma subscribeOrderBook_reject_depth (acct : AccountType) (inst : Nat) (us : Option Nat)
    (st : BufferMap) (snap : DeltaBatch) (arrivals : List DeltaBatch) (d : Nat)
    (hd1 : 0 < d) (hd2 : d ≤ 20) (hd3 : d ∉ ([5, 10, 20] : List Nat))
    (hs : speedOf acct us ∈ validSpeedsOf acct) :
    subscribeOrderBook acct BookType.L2_MBP inst us (some d) st snap arrivals =
      { errors := ["invalid depth, valid depths are 5, 10 or 20"],
        actions := [], delivered := [], buffer := insertBuf st inst [] } := by
  unfold subscribeOrderBook
  rw [if_neg (by decide : ¬(BookType.L2_MBP = BookType.L3_MBO)), if_pos hs]
  simp only [Option.getD_some]
  rw [if_pos ⟨hd1, hd2⟩, if_pos hd3]

/-- Characterization of the diff-stream path of `_subscribe_order_book`
(depth zero or above 20): no rejection, the diff stream is subscribed and
every batch buffered during the await is forwarded unfiltered. -/
lemma subscribeOrderBook_diff (acct : AccountType) (inst : Nat) (us : Option Nat)
    (st : BufferMap) (snap : DeltaBatch) (arrivals : List DeltaBatch) (d : Nat)
    (hd : ¬(0 < d ∧ d ≤ 20)) (hs : speedOf acct us ∈ validSpeedsOf acct) :
    subscribeOrderBook acct BookType.L2_MBP inst us (some d) st snap arrivals =
      { errors := [],
        actions := [NetworkAction.subscribeDiffDepth inst (speedOf acct us)],
        delivered := arrivals,
        buffer := eraseBuf (dispatchArrivals (insertBuf st inst []) inst arrivals).1 inst } := by
  have hrun := dispatchArrivals_spec inst arrivals (insertBuf st inst []) []
    (lookupBuf_insertBuf_self st inst [])
  unfold subscribeOrderBook
  rw [if_neg (by decide : ¬(BookType.L2_MBP = BookType.L3_MBO)), if_pos hs]
  simp only [Option.getD_some]
  rw [if_neg hd]
  rw [hrun.1, hrun.2]
  simp [flushBuffer]

/-- Characterization of the update-speed rejection path of
`_subscribe_order_book`: the call returns before any buffer entry is
created and before any network action. -/
lemma subscribeOrderBook_reject_speed (acct : AccountType) (inst : Nat) (us : Option Nat)
    (depthArg : Option Nat) (st : BufferMap) (snap : DeltaBatch) (arrivals : List DeltaBatch)
    (hs : speedOf acct us ∉ validSpeedsOf acct) :
    subscribeOrderBook acct BookType.L2_MBP inst us depthArg st snap arrivals =
      { errors := ["invalid update_speed"],
        actions := [], delivered := [], buffer := st } := by
  unfold subscribeOrderBook
  rw [if_neg (by decide : ¬(BookType.L2_MBP = BookType.L3_MBO)), if_neg hs]

/-- Pointwise equivalence of the discard predicate: the source keeps a
batch iff its sequence is not at most the snapshot's, i.e. is greater. -/
lemma filter_gt_of_not_le (snap : DeltaBatch) (l : List DeltaBatch) :
    (l.filter fun b => !decide (b.sequence ≤ snap.sequence))
      = l.filter fun b => decide (snap.sequence < b.sequence) := by
  refine List.filter_congr ?_
  intro b _
  rw [← decide_not]
  exact decide_eq_decide.mpr Nat.not_le

/-- C1: on the snapshot path (depth in {5, 10, 20}), after the snapshot
arrives it is forwarded to the consumer first, then exactly the buffered
batches with sequence strictly above the snapshot's sequence are forwarded
in arrival order (no duplicates arise when the buffered batches were
distinct), and the per-instrument buffer entry is cleared. -/
theorem c1_snapshot_reconciliation (acct : AccountType) (inst : Nat) (us : Option Nat)
    (st : BufferMap) (snap : DeltaBatch) (arrivals : List DeltaBatch) (d : Nat)
    (hd : d ∈ ([5, 10, 20] : List Nat)) (hs : speedOf acct us ∈ validSpeedsOf acct) :
    (subscribeOrderBook acct BookType.L2_MBP inst us (some d) st snap arrivals).delivered
        = snap :: (arrivals.filter fun b => decide (snap.sequence < b.sequence))
      ∧ lookupBuf (subscribeOrderBook acct BookType.L2_MBP inst us (some d)
          st snap arrivals).buffer inst = none
      ∧ (arrivals.Nodup →
          ((subscribeOrderBook acct BookType.L2_MBP inst us (some d)
              st snap arrivals).delivered.drop 1).Nodup) := by
  rw [subscribeOrderBook_snapshot acct inst us st snap arrivals d hd hs]
  refine ⟨by rw [filter_gt_of_not_le], lookupBuf_eraseBuf_self _ _, ?_⟩
  intro hnd
  simpa using hnd.filter _

/-- Witness for C1: a spot-mode depth-10 subscription with snapshot
sequence 3 and buffered batches with sequences 1, 3, 5, 7 delivers the
snapshot first, then exactly the batches with sequences 5 and 7. -/
theorem c1_witness :
    (subscribeOrderBook AccountType.spot BookType.L2_MBP 0 none (some 10) []
        ⟨3, 99⟩ [⟨1, 0⟩, ⟨3, 1⟩, ⟨5, 2⟩, ⟨7, 3⟩]).delivered
        = [⟨3, 99⟩, ⟨5, 2⟩, ⟨7, 3⟩]
      ∧ lookupBuf (subscribeOrderBook AccountType.spot BookType.L2_MBP 0 none (some 10) []
          ⟨3, 99⟩ [⟨1, 0⟩, ⟨3, 1⟩, ⟨5, 2⟩, ⟨7, 3⟩]).buffer 0 = none := by
  have h := c1_snapshot_reconciliation AccountType.spot 0 none [] ⟨3, 99⟩
    [⟨1, 0⟩, ⟨3, 1⟩, ⟨5, 2⟩, ⟨7, 3⟩] 10 (by decide) (by decide)
  exact ⟨h.1.trans (by decide), h.2.1⟩

/-- C2: while a buffer entry exists for an instrument (Buffering), every
incoming diff batch is appended to the entry in arrival order and none is
forwarded; once the entry is gone (Synced), an incoming batch is forwarded
immediately and the state is untouched. -/
theorem c2_buffering_vs_synced (inst : Nat) (stB stS : BufferMap)
    (acc l : List DeltaBatch) (b : DeltaBatch)
    (hB : lookupBuf stB inst = some acc) (hS : lookupBuf stS inst = none) :
    (dispatchArrivals stB inst l).2 = []
      ∧ lookupBuf (dispatchArrivals stB inst l).1 inst = some (acc ++ l)
      ∧ handleBookDiffUpdate stS inst b = (stS, some b) := by
  have h := dispatchArrivals_spec inst l stB acc hB
  exact ⟨h.2, h.1, by simp [handleBookDiffUpdate, hS]⟩

/-- Witness for C2: with instrument 0 buffering one batch, two incoming
batches are appended in order and none forwarded; with no buffer entry, an
incoming batch is forwarded at once. -/
theorem c2_witness :
    (dispatchArrivals [(0, [⟨1, 1⟩])] 0 [⟨2, 2⟩, ⟨3, 3⟩]).2 = []
      ∧ lookupBuf (dispatchArrivals [(0, [⟨1, 1⟩])] 0 [⟨2, 2⟩, ⟨3, 3⟩]).1 0
          = some [⟨1, 1⟩, ⟨2, 2⟩, ⟨3, 3⟩]
      ∧ handleBookDiffUpdate [] 0 ⟨9, 9⟩ = ([], some ⟨9, 9⟩) := by
  have h := c2_buffering_vs_synced 0 [(0, [⟨1, 1⟩])] [] [⟨1, 1⟩] [⟨2, 2⟩, ⟨3, 3⟩] ⟨9, 9⟩
    (by decide) (by decide)
  exact ⟨h.1, h.2.1, h.2.2⟩

/-- C9: a book subscription rejected for an invalid depth d with
0 < d ≤ 20 and d not in {5, 10, 20} returns with the freshly created
buffer entry still present and performs no network action; every
subsequent diff batch for the instrument is appended to the orphaned
entry and never delivered. -/
theorem c9_orphaned_buffer (acct : AccountType) (inst : Nat) (us : Option Nat)
    (st : BufferMap) (snap : DeltaBatch) (arrivals later : List DeltaBatch) (d : Nat)
    (hd1 : 0 < d) (hd2 : d ≤ 20) (hd3 : d ∉ ([5, 10, 20] : List Nat))
    (hs : speedOf acct us ∈ validSpeedsOf acct) :
    (subscribeOrderBook acct BookType.L2_MBP inst us (some d) st snap arrivals).errors ≠ []
      ∧ (subscribeOrderBook acct BookType.L2_MBP inst us (some d) st snap arrivals).actions = []
      ∧ lookupBuf (subscribeOrderBook acct BookType.L2_MBP inst us (some d)
          st snap arrivals).buffer inst = some []
      ∧ (dispatchArrivals (subscribeOrderBook acct BookType.L2_MBP inst us (some d)
          st snap arrivals).buffer inst later).2 = []
      ∧ lookupBuf (dispatchArrivals (subscribeOrderBook acct BookType.L2_MBP inst us (some d)
          st snap arrivals).buffer inst later).1 inst = some later := by
  rw [subscribeOrderBook_reject_depth acct inst us st snap arrivals d hd1 hd2 hd3 hs]
  have h0 := lookupBuf_insertBuf_self st inst []
  have h := dispatchArrivals_spec inst later (insertBuf st inst []) [] h0
  exact ⟨by simp, rfl, h0, h.2, by simpa using h.1⟩

/-- Witness for C9: a spot-mode depth-7 subscription is rejected, leaves
the empty buffer entry for instrument 0 in place, and a later batch is
buffered there rather than delivered. -/
theorem c9_witness :
    (subscribeOrderBook AccountType.spot BookType.L2_MBP 0 none (some 7) []
        ⟨0, 0⟩ []).actions = []
      ∧ lookupBuf (subscribeOrderBook AccountType.spot BookType.L2_MBP 0 none (some 7) []
          ⟨0, 0⟩ []).buffer 0 = some []
      ∧ (dispatchArrivals (subscribeOrderBook AccountType.spot BookType.L2_MBP 0 none (some 7) []
          ⟨0, 0⟩ []).buffer 0 [⟨4, 4⟩]).2 = [] := by
  have h := c9_orphaned_buffer AccountType.spot 0 none [] ⟨0, 0⟩ [] [⟨4, 4⟩] 7
    (by decide) (by decide) (by decide) (by decide)
  exact ⟨h.2.1, h.2.2.1, h.2.2.2.1⟩

/-- C3 counterexample: a frame whose envelope decode fails makes
`_handle_ws_message` propagate the exception — the envelope decode happens
before the `try` block — refuting the claim that the dispatch routine never
propagates an exception for any inbound frame. -/
theorem c3_counterexample :
    handleWsMessage { wrapper := none, raises := fun _ => false }
      = WsOutcome.propagated := rfl

/-- C3 (amended): for every inbound frame whose envelope decode succeeds,
the dispatch routine never propagates an exception — a raising handler is
caught and reported per-frame — and a frame whose topic tag matches no
handler is reported as unrecognized without terminating the stream. -/
theorem c3_amended_no_propagation (stream : String) (raises : String → Bool) :
    (∃ events, handleWsMessage { wrapper := some stream, raises := raises }
        = WsOutcome.ok events)
      ∧ ((∀ k ∈ wsHandlerKeys, strContains stream k = false) →
          handleWsMessage { wrapper := some stream, raises := raises }
            = WsOutcome.ok [WsEvent.unrecognized stream]) := by
  constructor
  · exact ⟨_, rfl⟩
  · intro h
    suffices h2 : ∀ ks, (∀ k ∈ ks, strContains stream k = false) →
        dispatchFrame stream raises ks false = [WsEvent.unrecognized stream] by
      simpa [handleWsMessage] using h2 wsHandlerKeys h
    intro ks
    induction ks with
    | nil => intro _; rfl
    | cons k ks ih =>
      intro hk
      simp [dispatchFrame, hk k (by simp), ih fun x hx => hk x (by simp [hx])]

/-- Witness for C3 (amended): a decodable frame with an unmatched topic is
reported as unrecognized and the routine returns normally. -/
theorem c3_witness :
    handleWsMessage { wrapper := some "abc", raises := fun _ => false }
      = WsOutcome.ok [WsEvent.unrecognized "abc"] :=
  (c3_amended_no_propagation "abc" (fun _ => false)).2 (by decide)

/-- C4 counterexample: a positive requested depth of 25 — outside
{5, 10, 20} — is not rejected: the call logs no error and subscribes the
diff-book stream (a network action), refuting the claim that every
positive depth outside the supported set is rejected with no network
action. -/
theorem c4_counterexample :
    (subscribeOrderBook AccountType.spot BookType.L2_MBP 0 none (some 25) []
        ⟨0, 0⟩ []).errors = []
      ∧ (subscribeOrderBook AccountType.spot BookType.L2_MBP 0 none (some 25) []
          ⟨0, 0⟩ []).actions = [NetworkAction.subscribeDiffDepth 0 100] := by
  decide

/-- C4 (amended): a requested depth d with 0 < d ≤ 20 and d outside
{5, 10, 20} is rejected with no network action; a depth above 20 is not
rejected and takes the diff-stream path; an update speed outside the
mode's allowed set ({0,100,250,500} futures, {100,1000} spot) is rejected
with no network action and the state unchanged; an absent update speed is
equivalent to the mode-dependent default (0 ms futures, 100 ms spot). -/
theorem c4_amended_validation (acct : AccountType) (inst : Nat) (us : Option Nat)
    (st : BufferMap) (snap : DeltaBatch) (arrivals : List DeltaBatch) (d : Nat) :
    (speedOf acct us ∉ validSpeedsOf acct →
        (subscribeOrderBook acct BookType.L2_MBP inst us (some d) st snap arrivals).errors ≠ []
          ∧ (subscribeOrderBook acct BookType.L2_MBP inst us (some d) st snap arrivals).actions = []
          ∧ (subscribeOrderBook acct BookType.L2_MBP inst us (some d) st snap arrivals).buffer = st)
      ∧ (0 < d → d ≤ 20 → d ∉ ([5, 10, 20] : List Nat) →
          speedOf acct us ∈ validSpeedsOf acct →
          (subscribeOrderBook acct BookType.L2_MBP inst us (some d) st snap arrivals).errors ≠ []
            ∧ (subscribeOrderBook acct BookType.L2_MBP inst us (some d) st snap arrivals).actions = [])
      ∧ (20 < d → speedOf acct us ∈ validSpeedsOf acct →
          (subscribeOrderBook acct BookType.L2_MBP inst us (some d) st snap arrivals).errors = []
            ∧ (subscribeOrderBook acct BookType.L2_MBP inst us (some d) st snap arrivals).actions
                = [NetworkAction.subscribeDiffDepth inst (speedOf acct us)])
      ∧ subscribeOrderBook acct BookType.L2_MBP inst none (some d) st snap arrivals
          = subscribeOrderBook acct BookType.L2_MBP inst
              (some (if acct.isFutures then 0 else 100)) (some d) st snap arrivals := by
  refine ⟨?_, ?_, ?_, rfl⟩
  · intro hs
    rw [subscribeOrderBook_reject_speed acct inst us (some d) st snap arrivals hs]
    exact ⟨by simp, rfl, rfl⟩
  · intro hd1 hd2 hd3 hs
    rw [subscribeOrderBook_reject_depth acct inst us st snap arrivals d hd1 hd2 hd3 hs]
    exact ⟨by simp, rfl⟩
  · intro hd hs
    rw [subscribeOrderBook_diff acct inst us st snap arrivals d (by omega) hs]
    exact ⟨rfl, rfl⟩

/-- Witness for C4 (amended): futures update speed 50 ms is rejected with
no network action; spot depth 7 is rejected with no network action; spot
depth 25 takes the diff-stream path. -/
theorem c4_witness :
    (subscribeOrderBook AccountType.usdtFuture BookType.L2_MBP 0 (some 50) (some 10) []
        ⟨0, 0⟩ []).actions = []
      ∧ (subscribeOrderBook AccountType.usdtFuture BookType.L2_MBP 0 (some 50) (some 10) []
          ⟨0, 0⟩ []).errors ≠ []
      ∧ (subscribeOrderBook AccountType.spot BookType.L2_MBP 1 none (some 7) []
          ⟨0, 0⟩ []).actions = []
      ∧ (subscribeOrderBook AccountType.spot BookType.L2_MBP 2 none (some 25) []
          ⟨0, 0⟩ []).actions = [NetworkAction.subscribeDiffDepth 2 100] := by
  have h1 := (c4_amended_validation AccountType.usdtFuture 0 (some 50) [] ⟨0, 0⟩ [] 10).1
    (by decide)
  have h2 := (c4_amended_validation AccountType.spot 1 none [] ⟨0, 0⟩ [] 7).2.1
    (by decide) (by decide) (by decide) (by decide)
  have h3 := (c4_amended_validation AccountType.spot 2 none [] ⟨0, 0⟩ [] 25).2.2.1
    (by decide) (by decide)
  exact ⟨h1.2.1, h1.1, h2.2, h3.2⟩

/-- C5 (code bug): on a futures account, a one-second bar subscription and
a one-second historical bar request both log the "second interval bars are
not aggregated by Binance Futures" rejection, yet — the check lacking a
`return` — still issue the websocket subscription and the HTTP request
respectively: the reported rejection does not prevent the network
action. -/
theorem c5_seconds_rejection_still_acts :
    (subscribeBars AccountType.usdtFuture ⟨0, true, BarAggregation.second, 1, true⟩).errors
        = ["Second interval bars are not aggregated by Binance Futures"]
      ∧ (subscribeBars AccountType.usdtFuture ⟨0, true, BarAggregation.second, 1, true⟩).actions
          = [NetworkAction.subscribeBarsWs 0 (1, 's')]
      ∧ (requestBarsM AccountType.usdtFuture ⟨0, true, BarAggregation.second, 1, true⟩
            100 7 [11, 22]).errors
          = ["second interval bars are not aggregated by Binance Futures"]
      ∧ (requestBarsM AccountType.usdtFuture ⟨0, true, BarAggregation.second, 1, true⟩
            100 7 [11, 22]).actions
          = [NetworkAction.requestBinanceBars (1, 's') 100]
      ∧ (requestBarsM AccountType.usdtFuture ⟨0, true, BarAggregation.second, 1, true⟩
            100 7 [11, 22]).delivered = some ([11], 22, 7) := by
  decide

/-- C6: an absent (0) or above-maximum result-count limit is clamped to
exactly 1000 and a limit in 1..1000 passes through unchanged, in both the
trade-tick request and the bar request as issued to the venue. -/
theorem c6_limit_clamp (l : Nat) :
    clampLimit 0 = 1000
      ∧ (1000 < l → clampLimit l = 1000)
      ∧ (1 ≤ l → l ≤ 1000 → clampLimit l = l)
      ∧ requestTradeTicksM false l = [NetworkAction.requestTrades (clampLimit l)]
      ∧ requestTradeTicksM true l = [NetworkAction.requestAggTrades (clampLimit l)]
      ∧ (requestBarsM AccountType.spot ⟨0, true, BarAggregation.minute, 1, true⟩
            l 5 [42]).actions
          = [NetworkAction.requestBinanceBars (1, 'm') (clampLimit l)] := by
  refine ⟨rfl, ?_, ?_, rfl, rfl, rfl⟩
  · intro h
    have h0 : (l == 0 || decide (l > 1000)) = true := by simp [h]
    simp [clampLimit, h0]
  · intro h1 h2
    have h0 : (l == 0 || decide (l > 1000)) = false := by
      simp only [Bool.or_eq_false_iff, beq_eq_false_iff_ne, ne_eq, decide_eq_false_iff_not,
        not_lt]
      omega
    simp [clampLimit, h0]

/-- Witness for C6: 1500 is clamped to 1000, 700 passes through, and the
issued trade-tick request carries the clamped value. -/
theorem c6_witness :
    clampLimit 1500 = 1000 ∧ clampLimit 700 = 700
      ∧ requestTradeTicksM false 1500 = [NetworkAction.requestTrades 1000] := by
  have h1 := (c6_limit_clamp 1500).2.1 (by decide)
  have h2 := (c6_limit_clamp 700).2.2.1 (by decide) (by decide)
  have h3 := (c6_limit_clamp 1500).2.2.2.1
  exact ⟨h1, h2, by rw [h3, h1]⟩

/-- C7: an accepted historical bar request whose venue response holds
N + 1 bars delivers exactly the first N bars as completed history and
splits the last bar out as the separately delivered partial bar, under the
same correlation token. -/
theorem c7_partial_bar_split (acct : AccountType) (bt : BarTypeM) (limit cid n : Nat)
    (response : List Nat)
    (hext : bt.externallyAggregated = true)
    (htime : isTimeAggregated bt.aggregation = true)
    (hiv : (mkKlineInterval bt.step (parseInternalBarAgg bt.aggregation)).isSome = true)
    (hlast : bt.priceTypeLast = true)
    (hlen : response.length = n + 1) :
    ∃ lastBar,
      response.getLast? = some lastBar
        ∧ (requestBarsM acct bt limit cid response).delivered
            = some (response.dropLast, lastBar, cid)
        ∧ (requestBarsM acct bt limit cid response).raised = false
        ∧ response.dropLast.length = n
        ∧ response.dropLast ++ [lastBar] = response := by
  obtain ⟨iv, hiv'⟩ := Option.isSome_iff_exists.mp hiv
  have hne : response ≠ [] := by
    intro h
    rw [h] at hlen
    simp at hlen
  obtain ⟨lastBar, hl⟩ := Option.isSome_iff_exists.mp (List.getLast?_isSome.mpr hne)
  refine ⟨lastBar, hl, ?_, ?_, ?_, ?_⟩
  · simp [requestBarsM, hext, htime, hlast, hiv', hl]
  · simp [requestBarsM, hext, htime, hlast, hiv', hl]
  · rw [List.length_dropLast, hlen]
    omega
  · exact List.dropLast_append_getLast? lastBar hl

/-- Witness for C7: a three-bar response delivers the first two bars as
history and the third separately as the partial bar, with the caller's
correlation token. -/
theorem c7_witness :
    (requestBarsM AccountType.spot ⟨0, true, BarAggregation.minute, 1, true⟩
        500 9 [10, 20, 30]).delivered = some ([10, 20], 30, 9) := by
  obtain ⟨lastBar, hl, hd, _, _, _⟩ := c7_partial_bar_split AccountType.spot
    ⟨0, true, BarAggregation.minute, 1, true⟩ 500 9 2 [10, 20, 30]
    (by decide) (by decide) (by decide) (by decide) (by decide)
  have h30 : lastBar = 30 := by
    have h : some lastBar = some 30 := by rw [← hl]; decide
    exact Option.some.inj h
  rw [h30] at hd
  exact hd.trans (by decide)

/-- C10: an accepted historical bar request with an empty venue response
raises out of the request path — `bars.pop()` is unguarded — and no
response, neither bars nor a partial bar, is ever delivered for the
correlation token; a delivery can only happen when the venue returned at
least one bar. -/
theorem c10_empty_response_raises (acct : AccountType) (bt : BarTypeM) (limit cid : Nat)
    (hext : bt.externallyAggregated = true)
    (htime : isTimeAggregated bt.aggregation = true)
    (hiv : (mkKlineInterval bt.step (parseInternalBarAgg bt.aggregation)).isSome = true)
    (hlast : bt.priceTypeLast = true) :
    (requestBarsM acct bt limit cid []).raised = true
      ∧ (requestBarsM acct bt limit cid []).delivered = none
      ∧ ∀ response : List Nat,
          (requestBarsM acct bt limit cid response).delivered ≠ none → response ≠ [] := by
  obtain ⟨iv, hiv'⟩ := Option.isSome_iff_exists.mp hiv
  have hempty : (requestBarsM acct bt limit cid []).raised = true
      ∧ (requestBarsM acct bt limit cid []).delivered = none := by
    constructor <;> simp [requestBarsM, hext, htime, hlast, hiv']
  refine ⟨hempty.1, hempty.2, ?_⟩
  intro response hne hcontra
  rw [hcontra] at hne
  exact hne hempty.2

/-- Witness for C10: an accepted one-minute spot bar request with an empty
response raises and delivers nothing. -/
theorem c10_witness :
    (requestBarsM AccountType.spot ⟨0, true, BarAggregation.minute, 1, true⟩
        500 9 []).raised = true
      ∧ (requestBarsM AccountType.spot ⟨0, true, BarAggregation.minute, 1, true⟩
          500 9 []).delivered = none := by
  have h := c10_empty_response_raises AccountType.spot
    ⟨0, true, BarAggregation.minute, 1, true⟩ 500 9
    (by decide) (by decide) (by decide) (by decide)
  exact ⟨h.1, h.2.1⟩

/-- C8: cancellation delivered at the sleep suspension point terminates
the `_update_instruments` loop with exactly the reloads of the completed
sleeps before it — no further reload or re-push after the cancellation —
and is absorbed by the task's `except` clause (a normal, debug-logged
return); `_disconnect` cancels an existing task handle and clears it
(and is a no-op on an absent handle). -/
theorem c8_cancellation_absorbed (pre rest : List SleepOutcome) (t : Nat)
    (h : ∀ o ∈ pre, o = SleepOutcome.completed) :
    updateInstruments (pre ++ SleepOutcome.cancelled :: rest)
        = RefreshRun.absorbed pre.length
      ∧ disconnectTask (some t) = (none, true)
      ∧ disconnectTask none = (none, false) := by
  refine ⟨?_, rfl, rfl⟩
  induction pre with
  | nil => rfl
  | cons o os ih =>
    have ho : o = SleepOutcome.completed := h o (by simp)
    subst ho
    have hrec := ih fun x hx => h x (by simp [hx])
    simp [updateInstruments, hrec]

/-- Witness for C8: two completed sleeps then a cancellation yield exactly
two reloads and an absorbed termination, ignoring the rest of the
schedule; disconnecting with a live handle cancels and clears it. -/
theorem c8_witness :
    updateInstruments [SleepOutcome.completed, SleepOutcome.completed,
        SleepOutcome.cancelled, SleepOutcome.completed] = RefreshRun.absorbed 2
      ∧ disconnectTask (some 0) = (none, true) := by
  have h := c8_cancellation_absorbed [SleepOutcome.completed, SleepOutcome.completed]
    [SleepOutcome.completed] 0 (by decide)
  exact ⟨h.1, h.2.1⟩
